import Mathlib

/-!
Shallow embedding of the connectivity-monitoring core of the `vigil`
repository (src/models.rs, src/monitor/state.rs, src/monitor/ping.rs,
src/monitor/traceroute.rs, plus the Offline-event handler of
src/main.rs), together with theorems settling the claims C1..C10.

Modelling conventions:
* timestamps (`chrono::DateTime<Utc>`) are naturals counting milliseconds;
  the wall clock read by `Utc::now()` is threaded as an explicit `now`
  argument into the operations that read it;
* `duration_secs` (`(now - start).num_milliseconds() as f64 / 1000.0` in
  src/models.rs) is modelled as the signed millisecond count `duration_ms`;
  division by the constant 1000 preserves sign and zero-ness;
* `f64` latencies are modelled as rationals; the `u32` counters of the
  tracker are naturals (exact for any run shorter than 2^32 ticks, and no
  claim distinguishes the two);
* the `HashMap<String, TargetState>` keyed by `target.ip` is modelled as a
  list of `TargetState`; `get_mut` updates the entry with the matching key
  (the first one, which is the unique one for key-distinct configurations,
  exactly as in a `HashMap`).
-/

namespace Vigil

/-- Model of `ConnectivityState` from src/models.rs. -/
inductive ConnectivityState where
  | Online
  | Degraded
  | Offline
deriving DecidableEq, Repr

/-- Model of `Target` from src/models.rs. -/
structure Target where
  name : String
  ip : String
deriving DecidableEq, Repr

/-- Model of `PingResult` from src/models.rs (timestamp in ms, latency as ℚ). -/
structure PingResult where
  target : String
  target_name : String
  timestamp : Nat
  success : Bool
  latency_ms : Option ℚ
  error : Option String
deriving DecidableEq, Repr

/-- Model of `Outage` from src/models.rs; `duration_secs` is kept in
milliseconds (see the module conventions). -/
structure Outage where
  id : Option Int
  start_time : Nat
  end_time : Option Nat
  duration_ms : Option Int
  affected_targets : List String
  failing_hop : Option Nat
  failing_hop_ip : Option String
  notes : Option String
deriving DecidableEq, Repr

/-- Model of `Outage::new` (src/models.rs:66-77); `Utc::now()` is the
explicit `now` argument. -/
def Outage.new (affected_targets : List String) (now : Nat) : Outage :=
  { id := none
    start_time := now
    end_time := none
    duration_ms := none
    affected_targets := affected_targets
    failing_hop := none
    failing_hop_ip := none
    notes := none }

/-- Model of `Outage::end` (src/models.rs:79-83); `end` is a Lean keyword,
hence the name `endAt`. -/
def Outage.endAt (o : Outage) (now : Nat) : Outage :=
  { o with end_time := some now
           duration_ms := some ((now : Int) - (o.start_time : Int)) }

/-- Model of `TargetState` from src/monitor/state.rs. -/
structure TargetState where
  target : Target
  last_result : Option PingResult
  consecutive_failures : Nat
  consecutive_successes : Nat
deriving DecidableEq, Repr

/-- Model of `TargetState::new` (src/monitor/state.rs:28-35). -/
def TargetState.new (target : Target) : TargetState :=
  { target := target
    last_result := none
    consecutive_failures := 0
    consecutive_successes := 0 }

/-- Model of `TargetState::update` (src/monitor/state.rs:38-47). -/
def TargetState.update (s : TargetState) (result : PingResult) : TargetState :=
  if result.success then
    { s with consecutive_failures := 0
             consecutive_successes := s.consecutive_successes + 1
             last_result := some result }
  else
    { s with consecutive_successes := 0
             consecutive_failures := s.consecutive_failures + 1
             last_result := some result }

/-- Model of `TargetState::is_failing` (src/monitor/state.rs:50-52). -/
def TargetState.failing (s : TargetState) : Bool :=
  decide (0 < s.consecutive_failures)

/-- Model of `MonitorConfig` from src/config.rs (the fields the tracker
reads). -/
structure MonitorConfig where
  ping_interval_ms : Nat
  ping_timeout_ms : Nat
  degraded_threshold : Nat
  offline_threshold : Nat
  recovery_threshold : Nat
deriving DecidableEq, Repr

/-- Model of `StateEvent` from src/monitor/state.rs. -/
inductive StateEvent where
  | Degraded (failing_targets : List String)
  | Offline (outage : Outage)
  | Recovered (outage : Outage)
  | NoChange
deriving DecidableEq, Repr

/-- Model of `ConnectivityTracker` from src/monitor/state.rs (the
`HashMap` of target states as a list, see the module conventions). -/
structure ConnectivityTracker where
  state : ConnectivityState
  config : MonitorConfig
  target_states : List TargetState
  current_outage : Option Outage
  aggregate_failures : Nat
  aggregate_successes : Nat
deriving DecidableEq, Repr

/-- Model of `ConnectivityTracker::new` (src/monitor/state.rs:69-83). -/
def ConnectivityTracker.new (config : MonitorConfig) (targets : List Target) :
    ConnectivityTracker :=
  { state := ConnectivityState.Online
    config := config
    target_states := targets.map TargetState.new
    current_outage := none
    aggregate_failures := 0
    aggregate_successes := 0 }

/-- Model of `self.target_states.get_mut(&result.target)` followed by
`target_state.update(result)` (src/monitor/state.rs:88-90): update the
entry keyed by `result.target`, leave the map unchanged when the key is
absent. -/
def updateTargetStates (l : List TargetState) (result : PingResult) :
    List TargetState :=
  match l with
  | [] => []
  | s :: rest =>
    if s.target.ip = result.target then s.update result :: rest
    else s :: updateTargetStates rest result

/-- The `failing_targets` vector computed in `process`
(src/monitor/state.rs:93-98). -/
def failingTargets (l : List TargetState) : List String :=
  (l.filter (fun s => s.failing)).map (fun s => s.target.ip)

/-- Model of `ConnectivityTracker::end_outage` (src/monitor/state.rs:173-180). -/
def ConnectivityTracker.end_outage (t : ConnectivityTracker) (now : Nat) :
    Option Outage × ConnectivityTracker :=
  match t.current_outage with
  | some o => (some (o.endAt now), { t with current_outage := none })
  | none => (none, t)

/-- Model of `ConnectivityTracker::start_outage` (src/monitor/state.rs:166-170). -/
def ConnectivityTracker.start_outage (t : ConnectivityTracker)
    (affected_targets : List String) (now : Nat) :
    Outage × ConnectivityTracker :=
  let outage := Outage.new affected_targets now
  (outage, { t with current_outage := some outage })

/-- Model of `ConnectivityTracker::process` (src/monitor/state.rs:86-163),
with `Utc::now()` as the explicit `now` argument. -/
def ConnectivityTracker.process (t : ConnectivityTracker)
    (result : PingResult) (now : Nat) : StateEvent × ConnectivityTracker :=
  let target_states := updateTargetStates t.target_states result
  let failing_targets := failingTargets target_states
  let any_failing := !failing_targets.isEmpty
  let all_healthy := failing_targets.isEmpty
  let aggregate_failures := if any_failing then t.aggregate_failures + 1 else 0
  let aggregate_successes := if any_failing then 0 else t.aggregate_successes + 1
  let t1 : ConnectivityTracker :=
    { t with target_states := target_states
             aggregate_failures := aggregate_failures
             aggregate_successes := aggregate_successes }
  match t.state with
  | ConnectivityState.Online =>
    if t1.config.degraded_threshold ≤ aggregate_failures then
      (StateEvent.Degraded failing_targets,
       { t1 with state := ConnectivityState.Degraded })
    else
      (StateEvent.NoChange, t1)
  | ConnectivityState.Degraded =>
    if all_healthy ∧ t1.config.recovery_threshold ≤ aggregate_successes then
      (StateEvent.NoChange,
       { t1 with state := ConnectivityState.Online, aggregate_failures := 0 })
    else if t1.config.offline_threshold ≤ aggregate_failures then
      let so := t1.start_outage failing_targets now
      (StateEvent.Offline so.1, { so.2 with state := ConnectivityState.Offline })
    else
      (StateEvent.NoChange, t1)
  | ConnectivityState.Offline =>
    if all_healthy ∧ t1.config.recovery_threshold ≤ aggregate_successes then
      match t1.end_outage now with
      | (some o, t2) =>
        (StateEvent.Recovered o,
         { t2 with state := ConnectivityState.Online, aggregate_failures := 0 })
      | (none, t2) => (StateEvent.NoChange, t2)
    else
      (StateEvent.NoChange, t1)

/-- Process a list of (result, now) pairs in order, collecting the emitted
events (the driver loop of src/main.rs feeding `tracker.process`). -/
def processSeq (t : ConnectivityTracker) :
    List (PingResult × Nat) → List StateEvent × ConnectivityTracker
  | [] => ([], t)
  | p :: rest =>
    let et := t.process p.1 p.2
    let reszt := processSeq et.2 rest
    (et.1 :: reszt.1, reszt.2)

/-- Model of `TracerouteHop` from src/models.rs (latency as ℚ). -/
structure TracerouteHop where
  hop_number : Nat
  ip : Option String
  hostname : Option String
  latency_ms : Option ℚ
  timeout : Bool
deriving DecidableEq, Repr

/-- Model of `TracerouteResult` from src/models.rs. -/
structure TracerouteResult where
  target : String
  timestamp : Nat
  hops : List TracerouteHop
  success : Bool
deriving DecidableEq, Repr

/-- The predicate of the `find` in `identify_failing_hop`
(src/monitor/traceroute.rs:83): the hop responded. -/
def respondingHop (h : TracerouteHop) : Bool :=
  !h.timeout && h.ip.isSome

/-- Model of `HopAnalyzer::identify_failing_hop` (src/monitor/traceroute.rs:73-86).
The `.rev().find(...)` is `reverse.find?`; the `unwrap()` on the found
hop's address is a match (the predicate guarantees the address is there). -/
def identify_failing_hop (result : TracerouteResult) : Option (Nat × String) :=
  if result.success then
    none
  else
    match result.hops.reverse.find? respondingHop with
    | some h =>
      match h.ip with
      | some ip => some (h.hop_number, ip)
      | none => none
    | none => none

/-- Model of `check_reached_target` (src/monitor/traceroute.rs:161-168). -/
def check_reached_target (hops : List TracerouteHop) (target : String) : Bool :=
  match hops.getLast? with
  | some lastHop =>
    match lastHop.ip with
    | some ip => ip == target
    | none => false
  | none => false

/-- Value of a list of decimal digit characters, most significant first
(the accumulation a decimal parser performs). -/
def natOfDigits (s : List Char) : Nat :=
  s.foldl (fun acc c => acc * 10 + (c.toNat - 48)) 0

/-- Model of `str::parse::<f64>` (src/monitor/ping.rs:136) restricted to plain
decimal literals — optional sign, digits with at most one point, at least
one digit — which are the only latency tokens a ping report carries; the
value is exact as a rational (`mkRat` of the scaled mantissa). -/
def parseUnsignedDecimal (s : List Char) : Option ℚ :=
  match s.findIdx? (fun c => c = '.') with
  | none =>
    if s ≠ [] ∧ s.all Char.isDigit then some (mkRat (natOfDigits s) 1)
    else none
  | some i =>
    let intPart := s.take i
    let fracPart := s.drop (i + 1)
    if (intPart ++ fracPart) ≠ [] ∧ (intPart ++ fracPart).all Char.isDigit then
      some (mkRat (natOfDigits (intPart ++ fracPart)) (10 ^ fracPart.length))
    else none

/-- Signed wrapper of `parseUnsignedDecimal`. -/
def parseDecimal (s : List Char) : Option ℚ :=
  match s with
  | '+' :: rest => parseUnsignedDecimal rest
  | '-' :: rest => (parseUnsignedDecimal rest).map (fun q => -q)
  | _ => parseUnsignedDecimal s

/-- Model of `str::find` of a pattern string (src/monitor/ping.rs:131):
index of the
first occurrence of `pat` in `s`, `none` when absent. -/
def findSubstr (pat : List Char) : List Char → Option Nat
  | [] => if pat.isEmpty then some 0 else none
  | c :: cs =>
    if pat.isPrefixOf (c :: cs) then some 0
    else
      match findSubstr pat cs with
      | some i => some (i + 1)
      | none => none

/-- The body of the per-line work in `parse_latency`
(src/monitor/ping.rs:130-139): find `time=`, slice to the first space or
letter m, parse the slice; `none` both when the token is absent and when
its parse fails (the Rust loop then moves to the next line). -/
def extractTimeToken (line : List Char) : Option ℚ :=
  match findSubstr ("time=".data) line with
  | none => none
  | some i =>
    let afterTime := line.drop (i + 5)
    let endIdx := (afterTime.findIdx? (fun c => c = ' ' ∨ c = 'm')).getD afterTime.length
    parseDecimal (afterTime.take endIdx)

/-- Split a character list at every occurrence of `sep`. -/
def splitOnChar (sep : Char) : List Char → List (List Char)
  | [] => [[]]
  | c :: cs =>
    match splitOnChar sep cs with
    | [] => [[]]
    | first :: rest =>
      if c = sep then [] :: first :: rest
      else (c :: first) :: rest

/-- Model of `str::lines` (src/monitor/ping.rs:130) on reports with plain
newline
separators; a final newline contributes one empty trailing line here where
Rust yields none, and an empty line never carries a `time=` token, so the
parse below is unaffected. -/
def stringLines (s : String) : List (List Char) :=
  splitOnChar '\n' s.data

/-- Model of `parse_latency` (src/monitor/ping.rs:128-142): the first line
with a parseable `time=` token wins. -/
def parse_latency (output : String) : Option ℚ :=
  (stringLines output).findSome? extractTimeToken

/-- The `latency_ms` computation of `ping_target`
(src/monitor/ping.rs:92-97): parse only on success. -/
def pingLatencyOfReport (success : Bool) (stdout : String) : Option ℚ :=
  if success then parse_latency stdout else none

/-- The failing-hop attachment of the Offline-event handler in `cmd_start`
(src/main.rs:347-358): enrich the outage copy that is saved with the hop
identified by the synchronous traceroute, when one is identified. -/
def attachFailingHop (outage : Outage) (trace : TracerouteResult) : Outage :=
  match identify_failing_hop trace with
  | some hi => { outage with failing_hop := some hi.1, failing_hop_ip := some hi.2 }
  | none => outage

/-- Whether any configured endpoint of the tracker is currently failing
(the `any_failing` of src/monitor/state.rs:100, read off a tracker). -/
def anyFailingTracker (t : ConnectivityTracker) : Bool :=
  !(failingTargets t.target_states).isEmpty

/-- The configured endpoint addresses of a tracker (the key set of the
`target_states` map). -/
def targetIps (t : ConnectivityTracker) : List String :=
  t.target_states.map (fun s => s.target.ip)

/-- Recognize a `StateEvent::Degraded`. -/
def isDegradedEvent : StateEvent → Bool
  | StateEvent.Degraded _ => true
  | _ => false

/-! Concrete instances used in scenario claims and witnesses. -/

/-- The thresholds of the spec scenario: degraded 3, offline 5, recovery 2. -/
def cfgC1 : MonitorConfig :=
  { ping_interval_ms := 1000
    ping_timeout_ms := 2000
    degraded_threshold := 3
    offline_threshold := 5
    recovery_threshold := 2 }

/-- The single configured endpoint of the scenario claims. -/
def targetC1 : Target := { name := "Google DNS", ip := "8.8.8.8" }

/-- A failing probe outcome for the configured endpoint at time `ts`. -/
def failPR (ts : Nat) : PingResult :=
  { target := "8.8.8.8"
    target_name := "Test"
    timestamp := ts
    success := false
    latency_ms := none
    error := some "timeout" }

/-- A successful probe outcome for the configured endpoint at time `ts`. -/
def okPR (ts : Nat) : PingResult :=
  { target := "8.8.8.8"
    target_name := "Test"
    timestamp := ts
    success := true
    latency_ms := some 10
    error := none }

/-- Five failures then two successes, clock ticking once per outcome. -/
def scenarioC1 : List (PingResult × Nat) :=
  [(failPR 1, 1), (failPR 2, 2), (failPR 3, 3), (failPR 4, 4), (failPR 5, 5),
   (okPR 6, 6), (okPR 7, 7)]

/-- The outage the scenario opens on the fifth failure (time 5). -/
def outageC1 : Outage := Outage.new ["8.8.8.8"] 5

/-- A traceroute that got two responding hops and then went dark. -/
def traceC5 : TracerouteResult :=
  { target := "9.9.9.9"
    timestamp := 0
    hops :=
      [{ hop_number := 1, ip := some "192.168.1.1", hostname := none,
         latency_ms := some 1, timeout := false },
       { hop_number := 2, ip := some "10.0.0.1", hostname := none,
         latency_ms := some 5, timeout := false },
       { hop_number := 3, ip := none, hostname := none,
         latency_ms := none, timeout := true }]
    success := false }

/-- Thresholds degraded 1, offline 5, recovery 2 (for the C10 scenario). -/
def cfgC10 : MonitorConfig :=
  { cfgC1 with degraded_threshold := 1 }

/-- A tracker that is Degraded while every configured endpoint is healthy
again, with one all-healthy tick already counted. -/
def trackerC10 : ConnectivityTracker :=
  (processSeq (ConnectivityTracker.new cfgC10 [targetC1])
    [(failPR 1, 1), (okPR 2, 2)]).2

/-- A failing outcome whose target is not a configured endpoint. -/
def strayFail : PingResult :=
  { target := "9.9.9.9"
    target_name := "Stray"
    timestamp := 3
    success := false
    latency_ms := none
    error := some "timeout" }

/-- The ping report of the repository's own latency test, newline-joined. -/
def pingReportC8 : String :=
  "PING 8.8.8.8 (8.8.8.8): 56 data bytes\n64 bytes from 8.8.8.8: icmp_seq=0 ttl=117 time=14.123 ms\n\n--- 8.8.8.8 ping statistics ---\n1 packets transmitted, 1 packets received, 0.0% packet loss\nround-trip min/avg/max/stddev = 14.123/14.123/14.123/0.000 ms"

/-- A report with two `time=` tokens on separate lines. -/
def twoTokenReport : String :=
  "a time=5.5 ms\nb time=9.9 ms"

/-- The first hop of `traceC5` (a responding gateway hop). -/
def hopGw : TracerouteHop :=
  { hop_number := 1, ip := some "192.168.1.1", hostname := none,
    latency_ms := some 1, timeout := false }

/-! ## Helper lemmas about one `process` step -/

/-- Processing a result never changes the configuration. -/
theorem process_config (t : ConnectivityTracker) (r : PingResult) (n : Nat) :
    (t.process r n).2.config = t.config := by
  obtain ⟨st, cfg, ts, co, af, asu⟩ := t
  cases st <;> cases co <;>
    simp only [ConnectivityTracker.process, ConnectivityTracker.start_outage,
      ConnectivityTracker.end_outage] <;>
    repeat' split
  all_goals rfl

/-- Updating the target map keeps the key list (the configured addresses). -/
theorem updateTargetStates_ips (l : List TargetState) (r : PingResult) :
    (updateTargetStates l r).map (fun s => s.target.ip) =
      l.map (fun s => s.target.ip) := by
  induction l with
  | nil => rfl
  | cons s rest ih =>
    simp only [updateTargetStates]
    split
    · simp [TargetState.update]
      split <;> rfl
    · simp [ih]

/-- A result whose target is not a configured address leaves the target map
unchanged (the `get_mut` lookup misses). -/
theorem updateTargetStates_not_mem (l : List TargetState) (r : PingResult)
    (h : r.target ∉ l.map (fun s => s.target.ip)) :
    updateTargetStates l r = l := by
  induction l with
  | nil => rfl
  | cons s rest ih =>
    simp only [List.map_cons, List.mem_cons] at h
    push_neg at h
    simp only [updateTargetStates]
    rw [if_neg (fun hh => h.1 hh.symm), ih h.2]

/-- A failing result for a configured address leaves its entry failing. -/
theorem updateTargetStates_failing_mem (l : List TargetState) (r : PingResult)
    (hs : r.success = false) (hm : r.target ∈ l.map (fun s => s.target.ip)) :
    ∃ s ∈ updateTargetStates l r, s.failing = true := by
  induction l with
  | nil => simp at hm
  | cons s rest ih =>
    simp only [List.map_cons, List.mem_cons] at hm
    simp only [updateTargetStates]
    by_cases he : s.target.ip = r.target
    · rw [if_pos he]
      refine ⟨s.update r, List.mem_cons_self _ _, ?_⟩
      simp [TargetState.update, hs, TargetState.failing]
    · rw [if_neg he]
      have hm2 : r.target ∈ rest.map (fun s => s.target.ip) := by
        rcases hm with h1 | h2
        · exact absurd h1.symm he
        · exact h2
      obtain ⟨x, hx, hfx⟩ := ih hm2
      exact ⟨x, List.mem_cons_of_mem _ hx, hfx⟩

/-- The failing-target list is empty exactly when no entry is failing. -/
theorem failingTargets_isEmpty (l : List TargetState) :
    (failingTargets l).isEmpty = true ↔ ∀ s ∈ l, s.failing = false := by
  simp only [failingTargets, List.isEmpty_iff, List.map_eq_nil_iff,
    List.filter_eq_nil_iff]
  constructor
  · intro h s hs
    simpa using h s hs
  · intro h s hs
    simp [h s hs]

/-- A failing member makes the failing-target list nonempty. -/
theorem failingTargets_ne_of_mem (l : List TargetState)
    (h : ∃ s ∈ l, s.failing = true) :
    (failingTargets l).isEmpty = false := by
  rcases h with ⟨s, hs, hf⟩
  by_contra hne
  have hem : (failingTargets l).isEmpty = true := by
    cases hh : (failingTargets l).isEmpty
    · exact absurd hh hne
    · rfl
  rw [failingTargets_isEmpty] at hem
  rw [hem s hs] at hf
  exact Bool.false_ne_true hf

/-- The target map after a step is the updated map, in every branch. -/
theorem process_target_states (t : ConnectivityTracker) (r : PingResult) (n : Nat) :
    (t.process r n).2.target_states = updateTargetStates t.target_states r := by
  obtain ⟨st, cfg, ts, co, af, asu⟩ := t
  cases st <;> cases co <;>
    simp only [ConnectivityTracker.process, ConnectivityTracker.start_outage,
      ConnectivityTracker.end_outage] <;>
    repeat' split
  all_goals rfl

/-- Processing a result keeps the configured address list. -/
theorem process_targetIps (t : ConnectivityTracker) (r : PingResult) (n : Nat) :
    targetIps (t.process r n).2 = targetIps t := by
  unfold targetIps
  rw [process_target_states, updateTargetStates_ips]

/-- Counter bookkeeping of one step, phrased on the post-state: a failing
tick zeroes successes and bumps failures, an all-healthy tick does the
inverse (src/monitor/state.rs:104-110, with the resets of lines 129/150
landing on an already-zero counter). -/
theorem process_counters (t : ConnectivityTracker) (r : PingResult) (n : Nat) :
    (anyFailingTracker (t.process r n).2 = true →
      (t.process r n).2.aggregate_successes = 0 ∧
      (t.process r n).2.aggregate_failures = t.aggregate_failures + 1) ∧
    (anyFailingTracker (t.process r n).2 = false →
      (t.process r n).2.aggregate_failures = 0 ∧
      (t.process r n).2.aggregate_successes = t.aggregate_successes + 1) := by
  obtain ⟨st, cfg, ts, co, af, asu⟩ := t
  cases st <;> cases co <;>
    simp only [ConnectivityTracker.process, ConnectivityTracker.start_outage,
      ConnectivityTracker.end_outage] <;>
    repeat' split
  all_goals simp_all [anyFailingTracker]

/-- One step on a failing result for a configured address: failures bump,
successes reset, a Degraded event fires exactly from Online at the
threshold, and the post-state is Online exactly below the threshold. -/
theorem process_failing_step (t : ConnectivityTracker) (r : PingResult) (n : Nat)
    (hs : r.success = false) (hm : r.target ∈ targetIps t) :
    (t.process r n).2.aggregate_failures = t.aggregate_failures + 1 ∧
    (t.process r n).2.aggregate_successes = 0 ∧
    (isDegradedEvent (t.process r n).1 = true ↔
      (t.state = ConnectivityState.Online ∧
       t.config.degraded_threshold ≤ t.aggregate_failures + 1)) ∧
    ((t.process r n).2.state = ConnectivityState.Online ↔
      (t.state = ConnectivityState.Online ∧
       t.aggregate_failures + 1 < t.config.degraded_threshold)) := by
  have hfail : (failingTargets (updateTargetStates t.target_states r)).isEmpty = false :=
    failingTargets_ne_of_mem _ (updateTargetStates_failing_mem _ r hs hm)
  obtain ⟨st, cfg, ts, co, af, asu⟩ := t
  cases st <;> cases co <;>
    simp only [ConnectivityTracker.process, ConnectivityTracker.start_outage,
      ConnectivityTracker.end_outage] <;>
    repeat' split
  all_goals simp_all [isDegradedEvent]

/-- One step from Online strictly below the degraded threshold: NoChange,
still Online, failures grow by at most one. -/
theorem process_online_low (t : ConnectivityTracker) (r : PingResult) (n : Nat)
    (h1 : t.state = ConnectivityState.Online)
    (h2 : t.aggregate_failures + 1 < t.config.degraded_threshold) :
    (t.process r n).1 = StateEvent.NoChange ∧
    (t.process r n).2.state = ConnectivityState.Online ∧
    (t.process r n).2.aggregate_failures ≤ t.aggregate_failures + 1 := by
  obtain ⟨st, cfg, ts, co, af, asu⟩ := t
  cases st <;> cases co <;>
    simp only [ConnectivityTracker.process, ConnectivityTracker.start_outage,
      ConnectivityTracker.end_outage] <;>
    repeat' split
  all_goals simp_all
  all_goals omega

/-- One step preserves the invariant that the outage slot is occupied
exactly in the Offline state. -/
theorem process_slotInv (t : ConnectivityTracker) (r : PingResult) (n : Nat)
    (h : t.current_outage.isSome = true ↔ t.state = ConnectivityState.Offline) :
    ((t.process r n).2.current_outage.isSome = true ↔
      (t.process r n).2.state = ConnectivityState.Offline) := by
  obtain ⟨st, cfg, ts, co, af, asu⟩ := t
  cases st <;> cases co <;>
    simp only [ConnectivityTracker.process, ConnectivityTracker.start_outage,
      ConnectivityTracker.end_outage] <;>
    repeat' split
  all_goals simp_all

/-! ## Helper lemmas about sequences of `process` steps -/

/-- A whole run from Online that stays strictly below the degraded
threshold: only NoChange, still Online, failures bounded by the length. -/
theorem processSeq_online_low (l : List (PingResult × Nat)) (t : ConnectivityTracker)
    (h1 : t.state = ConnectivityState.Online)
    (h2 : t.aggregate_failures + l.length < t.config.degraded_threshold) :
    (processSeq t l).1 = List.replicate l.length StateEvent.NoChange ∧
    (processSeq t l).2.state = ConnectivityState.Online ∧
    (processSeq t l).2.aggregate_failures ≤ t.aggregate_failures + l.length := by
  induction l generalizing t with
  | nil => simpa [processSeq] using h1
  | cons p rest ih =>
    have hstep := process_online_low t p.1 p.2 h1 (by simp at h2; omega)
    have hcfg := process_config t p.1 p.2
    have hih := ih (t.process p.1 p.2).2 hstep.2.1 (by rw [hcfg]; simp at h2 ⊢; omega)
    refine ⟨?_, ?_, ?_⟩
    · simp only [processSeq, hstep.1, hih.1, List.length_cons, List.replicate_succ]
    · simpa only [processSeq] using hih.2.1
    · have := hih.2.2
      simp only [processSeq, List.length_cons]
      omega

/-- The outage-slot invariant is preserved along any run. -/
theorem processSeq_slotInv (l : List (PingResult × Nat)) (t : ConnectivityTracker)
    (h : t.current_outage.isSome = true ↔ t.state = ConnectivityState.Offline) :
    ((processSeq t l).2.current_outage.isSome = true ↔
      (processSeq t l).2.state = ConnectivityState.Offline) := by
  induction l generalizing t with
  | nil => simpa [processSeq] using h
  | cons p rest ih =>
    simpa only [processSeq] using ih (t.process p.1 p.2).2 (process_slotInv t p.1 p.2 h)

/-- A run of failing results for configured addresses, starting with
failure counter `k` and Online exactly below the threshold: the Degraded
event fires exactly on the tick where the counter reaches the threshold,
and the counter counts the ticks. -/
theorem processSeq_failing_run (l : List (PingResult × Nat)) (t : ConnectivityTracker)
    (k : Nat)
    (hall : ∀ p ∈ l, p.1.success = false ∧ p.1.target ∈ targetIps t)
    (hk : t.aggregate_failures = k)
    (hst : t.state = ConnectivityState.Online ↔ k < t.config.degraded_threshold) :
    ((processSeq t l).1.map isDegradedEvent =
      (List.range l.length).map
        (fun i => decide (k + i + 1 = t.config.degraded_threshold))) ∧
    (processSeq t l).2.aggregate_failures = k + l.length := by
  induction l generalizing t k with
  | nil => simp [processSeq, hk]
  | cons p rest ih =>
    have hp := hall p (List.mem_cons_self _ _)
    have hstep := process_failing_step t p.1 p.2 hp.1 hp.2
    have hcfg := process_config t p.1 p.2
    have hips := process_targetIps t p.1 p.2
    set t2 := (t.process p.1 p.2).2 with ht2
    have hk2 : t2.aggregate_failures = k + 1 := by rw [hstep.1, hk]
    have hst2 : t2.state = ConnectivityState.Online ↔
        k + 1 < t2.config.degraded_threshold := by
      rw [hstep.2.2.2, hst, hk, hcfg]
      constructor
      · intro hh
        exact hh.2
      · intro hh
        exact ⟨by omega, hh⟩
    have hall2 : ∀ q ∈ rest, q.1.success = false ∧ q.1.target ∈ targetIps t2 := by
      intro q hq
      rw [hips]
      exact hall q (List.mem_cons_of_mem _ hq)
    have hih := ih t2 (k + 1) hall2 hk2 (by rw [hcfg] at hst2 ⊢; exact hst2)
    have hev : isDegradedEvent (t.process p.1 p.2).1 =
        decide (k + 0 + 1 = t.config.degraded_threshold) := by
      rw [Bool.eq_iff_iff, decide_eq_true_iff]
      rw [hstep.2.2.1, hst, hk]
      omega
    constructor
    · simp only [processSeq, List.map_cons, List.length_cons,
        List.range_succ_eq_map, List.map_map]
      rw [hev]
      congr 1
      rw [← ht2, hih.1, hcfg]
      apply List.map_congr_left
      intro i _
      simp only [Function.comp_apply]
      rw [decide_eq_decide]
      omega
    · simp only [processSeq, List.length_cons]
      rw [← ht2, hih.2]
      omega

/-- The configured addresses of a fresh tracker are the target addresses. -/
theorem targetIps_new (config : MonitorConfig) (targets : List Target) :
    targetIps (ConnectivityTracker.new config targets) = targets.map Target.ip := by
  simp [targetIps, ConnectivityTracker.new, TargetState.new, List.map_map,
    Function.comp]

/-- On a hop list with strictly increasing ordinals containing a responding
hop, the reverse-scan `find?` returns the responding hop of maximal
ordinal, together with its address. -/
theorem lastResponding_spec (l : List TracerouteHop)
    (hsort : l.Pairwise (fun a b => a.hop_number < b.hop_number))
    (h0 : ∃ h ∈ l, respondingHop h = true) :
    ∃ h ip, l.reverse.find? respondingHop = some h ∧ h.ip = some ip ∧ h ∈ l ∧
      respondingHop h = true ∧
      ∀ h2 ∈ l, respondingHop h2 = true → h2.hop_number ≤ h.hop_number := by
  induction l using List.reverseRecOn with
  | nil => simp at h0
  | append_singleton xs a ih =>
    rw [List.reverse_append, List.reverse_singleton, List.singleton_append]
    by_cases ha : respondingHop a = true
    · obtain ⟨ip, hip⟩ : ∃ ip, a.ip = some ip := by
        have hsome : a.ip.isSome = true := by
          have hr := ha
          unfold respondingHop at hr
          exact (Bool.and_eq_true _ _).mp hr |>.2
        exact Option.isSome_iff_exists.mp hsome
      refine ⟨a, ip, List.find?_cons_of_pos _ ha, hip,
        List.mem_append_right _ (List.mem_singleton_self a), ha, ?_⟩
      intro h2 hmem hresp
      rcases List.mem_append.mp hmem with hin | hsing
      · have := (List.pairwise_append.mp hsort).2.2 h2 hin a (List.mem_singleton_self a)
        omega
      · rw [List.mem_singleton.mp hsing]
    · have h0x : ∃ h ∈ xs, respondingHop h = true := by
        obtain ⟨h, hmem, hresp⟩ := h0
        rcases List.mem_append.mp hmem with hin | hsing
        · exact ⟨h, hin, hresp⟩
        · rw [List.mem_singleton.mp hsing] at hresp
          exact absurd hresp ha
      obtain ⟨h, ip, hfind, hip, hmem, hresp, hmax⟩ :=
        ih (List.pairwise_append.mp hsort).1 h0x
      refine ⟨h, ip, ?_, hip, List.mem_append_left _ hmem, hresp, ?_⟩
      · rw [List.find?_cons_of_neg _ ha]
        exact hfind
      · intro h2 hmem2 hresp2
        rcases List.mem_append.mp hmem2 with hin | hsing
        · exact hmax h2 hin hresp2
        · rw [List.mem_singleton.mp hsing] at hresp2
          exact absurd hresp2 ha

/-- A `findSome?` over a list on which the function always misses is
`none`. -/
theorem findSome?_none_of_all {α β : Type} (f : α → Option β) (l : List α)
    (h : ∀ x ∈ l, f x = none) : l.findSome? f = none := by
  induction l with
  | nil => rfl
  | cons a as ih =>
    rw [List.findSome?_cons]
    rw [h a (List.mem_cons_self _ _)]
    exact ih (fun x hx => h x (List.mem_cons_of_mem _ hx))

/-! ## Claim theorems -/

/-- C1: with thresholds degraded 3, offline 5, recovery 2 and a single
configured endpoint, five consecutive failures yield the events NoChange,
NoChange, Degraded, NoChange, Offline with an Outage opened; one success
yields NoChange with the state still Offline; a second success yields
Recovered carrying the closed Outage with positive duration. -/
theorem claim_C1 :
    (processSeq (ConnectivityTracker.new cfgC1 [targetC1]) scenarioC1).1 =
      [StateEvent.NoChange, StateEvent.NoChange, StateEvent.Degraded ["8.8.8.8"],
       StateEvent.NoChange, StateEvent.Offline outageC1, StateEvent.NoChange,
       StateEvent.Recovered (outageC1.endAt 7)] ∧
    (processSeq (ConnectivityTracker.new cfgC1 [targetC1]) (scenarioC1.take 5)).2.current_outage =
      some outageC1 ∧
    (processSeq (ConnectivityTracker.new cfgC1 [targetC1]) (scenarioC1.take 6)).1.getLast? =
      some StateEvent.NoChange ∧
    (processSeq (ConnectivityTracker.new cfgC1 [targetC1]) (scenarioC1.take 6)).2.state =
      ConnectivityState.Offline ∧
    (outageC1.endAt 7).end_time = some 7 ∧
    (0 : Int) < (outageC1.endAt 7).duration_ms.getD 0 := by decide

/-- C2: any run of fewer failing outcomes than the degraded threshold keeps
a fresh tracker Online and yields only NoChange; and on a run of failing
outcomes for configured endpoints, the Degraded event fires exactly on the
tick where the aggregate failure counter (which counts the ticks) first
equals the threshold, never earlier. -/
theorem claim_C2 :
    (∀ (config : MonitorConfig) (targets : List Target) (l : List (PingResult × Nat)),
      (∀ p ∈ l, p.1.success = false) →
      l.length < config.degraded_threshold →
      ((processSeq (ConnectivityTracker.new config targets) l).1 =
         List.replicate l.length StateEvent.NoChange ∧
       ∀ j, (processSeq (ConnectivityTracker.new config targets) (l.take j)).2.state =
              ConnectivityState.Online)) ∧
    (∀ (config : MonitorConfig) (targets : List Target) (l : List (PingResult × Nat)),
      1 ≤ config.degraded_threshold →
      (∀ p ∈ l, p.1.success = false ∧ p.1.target ∈ targets.map Target.ip) →
      ((processSeq (ConnectivityTracker.new config targets) l).1.map isDegradedEvent =
         (List.range l.length).map
           (fun i => decide (i + 1 = config.degraded_threshold)) ∧
       ∀ j ≤ l.length,
         (processSeq (ConnectivityTracker.new config targets)
           (l.take j)).2.aggregate_failures = j)) := by
  constructor
  · intro config targets l _ hlen
    constructor
    · exact (processSeq_online_low l (ConnectivityTracker.new config targets) rfl
        (by simpa [ConnectivityTracker.new] using hlen)).1
    · intro j
      refine (processSeq_online_low (l.take j) (ConnectivityTracker.new config targets) rfl
        ?_).2.1
      simp only [ConnectivityTracker.new, List.length_take]
      have : min j l.length ≤ l.length := Nat.min_le_right _ _
      omega
  · intro config targets l hd hall
    have hst : (ConnectivityTracker.new config targets).state = ConnectivityState.Online ↔
        0 < (ConnectivityTracker.new config targets).config.degraded_threshold :=
      ⟨fun _ => hd, fun _ => rfl⟩
    constructor
    · have h := (processSeq_failing_run l (ConnectivityTracker.new config targets) 0
        (by intro p hp; rw [targetIps_new]; exact hall p hp) rfl hst).1
      rw [h]
      apply List.map_congr_left
      intro i _
      rw [decide_eq_decide]
      have hc : (ConnectivityTracker.new config targets).config.degraded_threshold =
          config.degraded_threshold := rfl
      rw [hc]
      omega
    · intro j hj
      have h := (processSeq_failing_run (l.take j) (ConnectivityTracker.new config targets) 0
        (by intro p hp; rw [targetIps_new]; exact hall p (List.take_subset j l hp)) rfl hst).2
      rw [h, List.length_take]
      omega

/-- C3: after any processed outcome, when some endpoint is failing the
success counter is zero and the failure counter was incremented; when all
are healthy the failure counter is zero and the success counter was
incremented; and the flap sequence failure, success, failure from Degraded
with recovery threshold 2 leaves the tracker Degraded. -/
theorem claim_C3 :
    (∀ (t : ConnectivityTracker) (result : PingResult) (now : Nat),
      (anyFailingTracker (t.process result now).2 = true →
        (t.process result now).2.aggregate_successes = 0 ∧
        (t.process result now).2.aggregate_failures = t.aggregate_failures + 1) ∧
      (anyFailingTracker (t.process result now).2 = false →
        (t.process result now).2.aggregate_failures = 0 ∧
        (t.process result now).2.aggregate_successes = t.aggregate_successes + 1)) ∧
    (processSeq (ConnectivityTracker.new cfgC1 [targetC1])
        [(failPR 1, 1), (failPR 2, 2), (failPR 3, 3),
         (failPR 4, 4), (okPR 5, 5), (failPR 6, 6)]).2.state =
      ConnectivityState.Degraded :=
  ⟨process_counters, by decide⟩

/-- C4: a single `process` call never moves Online directly to Offline nor
Offline to Degraded; the only state changes are Online to Degraded,
Degraded to Offline, Degraded to Online and Offline to Online. -/
theorem claim_C4 (t : ConnectivityTracker) (result : PingResult) (now : Nat) :
    ¬ (t.state = ConnectivityState.Online ∧
        (t.process result now).2.state = ConnectivityState.Offline) ∧
    ¬ (t.state = ConnectivityState.Offline ∧
        (t.process result now).2.state = ConnectivityState.Degraded) ∧
    ((t.process result now).2.state = t.state ∨
     (t.state = ConnectivityState.Online ∧
       (t.process result now).2.state = ConnectivityState.Degraded) ∨
     (t.state = ConnectivityState.Degraded ∧
       (t.process result now).2.state = ConnectivityState.Offline) ∨
     (t.state = ConnectivityState.Degraded ∧
       (t.process result now).2.state = ConnectivityState.Online) ∨
     (t.state = ConnectivityState.Offline ∧
       (t.process result now).2.state = ConnectivityState.Online)) := by
  obtain ⟨st, cfg, ts, co, af, asu⟩ := t
  cases st <;> cases co <;>
    simp only [ConnectivityTracker.process, ConnectivityTracker.start_outage,
      ConnectivityTracker.end_outage] <;>
    repeat' split
  all_goals simp_all

/-- C5 counterexample: on the concrete Degraded-to-Offline transition of
the scenario, the emitted Offline event carries an Outage whose failing-hop
fields are unset, even though the diagnosis of `traceC5` identifies the
failing hop (2, 10.0.0.1) — so the emitted event does not carry the
attached hop. -/
theorem claim_C5_counterexample :
    identify_failing_hop traceC5 = some (2, "10.0.0.1") ∧
    (processSeq (ConnectivityTracker.new cfgC1 [targetC1]) (scenarioC1.take 5)).1.getLast? =
      some (StateEvent.Offline outageC1) ∧
    outageC1.failing_hop = none ∧
    outageC1.failing_hop_ip = none := by decide

/-- C5 (amended): every Offline event emitted by `process` comes from the
Degraded state and carries the freshly opened Outage, stored in the
tracker's slot, with failing-hop fields unset; the caller's handler
(src/main.rs:347-358) then attaches the failing hop and its address to the
outage copy it saves whenever the diagnosis identifies one. -/
theorem claim_C5 :
    (∀ (t : ConnectivityTracker) (result : PingResult) (now : Nat) (o : Outage)
       (t2 : ConnectivityTracker),
      t.process result now = (StateEvent.Offline o, t2) →
      (t.state = ConnectivityState.Degraded ∧ t2.state = ConnectivityState.Offline ∧
       t2.current_outage = some o ∧ o.start_time = now ∧
       o.failing_hop = none ∧ o.failing_hop_ip = none)) ∧
    (∀ (o : Outage) (trace : TracerouteResult) (hop : Nat) (ip : String),
      identify_failing_hop trace = some (hop, ip) →
      (attachFailingHop o trace).failing_hop = some hop ∧
      (attachFailingHop o trace).failing_hop_ip = some ip) := by
  constructor
  · intro t result now o t2 hp
    obtain ⟨st, cfg, ts, co, af, asu⟩ := t
    cases st <;> cases co <;>
      simp only [ConnectivityTracker.process, ConnectivityTracker.start_outage,
        ConnectivityTracker.end_outage] at hp <;>
      repeat' split at hp
    all_goals simp_all [Outage.new]
    all_goals obtain ⟨ho, ht⟩ := hp
    all_goals subst ho
    all_goals subst ht
    all_goals simp
  · intro o trace hop ip h
    simp [attachFailingHop, h]

/-- C6: `identify_failing_hop` returns none when the target was reached and
none when every hop timed out; otherwise (on a hop list with strictly
increasing ordinals containing a responding hop) it returns the
highest-ordinal hop that did not time out and has an address, paired with
that address. -/
theorem claim_C6 (result : TracerouteResult) :
    (result.success = true → identify_failing_hop result = none) ∧
    ((∀ h ∈ result.hops, h.timeout = true) → identify_failing_hop result = none) ∧
    (result.success = false →
      result.hops.Pairwise (fun a b => a.hop_number < b.hop_number) →
      ∀ h0 ∈ result.hops, respondingHop h0 = true →
      ∃ h ip, identify_failing_hop result = some (h.hop_number, ip) ∧
        h ∈ result.hops ∧ h.ip = some ip ∧ respondingHop h = true ∧
        ∀ h2 ∈ result.hops, respondingHop h2 = true →
          h2.hop_number ≤ h.hop_number) := by
  refine ⟨?_, ?_, ?_⟩
  · intro hs
    simp [identify_failing_hop, hs]
  · intro htimeout
    by_cases hs : result.success
    · simp [identify_failing_hop, hs]
    · have hnone : result.hops.reverse.find? respondingHop = none := by
        rw [List.find?_eq_none]
        intro x hx
        have hxmem : x ∈ result.hops := List.mem_reverse.mp hx
        simp [respondingHop, htimeout x hxmem]
      simp [identify_failing_hop, hs, hnone]
  · intro hs hsort h0 hmem hresp
    obtain ⟨h, ip, hfind, hip, hm, hr, hmax⟩ :=
      lastResponding_spec result.hops hsort ⟨h0, hmem, hresp⟩
    refine ⟨h, ip, ?_, hm, hip, hr, hmax⟩
    simp [identify_failing_hop, hs, hfind, hip]

/-- C7: the tracker holds at most one open Outage (a single optional slot),
and ending an outage when none is open returns none and leaves the whole
tracker — state, counters and slot — unchanged. -/
theorem claim_C7 (t : ConnectivityTracker) (now : Nat) :
    t.current_outage.toList.length ≤ 1 ∧
    (t.current_outage = none → t.end_outage now = (none, t)) := by
  constructor
  · cases t.current_outage <;> simp
  · intro h
    simp [ConnectivityTracker.end_outage, h]

set_option maxRecDepth 10000 in
/-- C8: latency parsing extracts the first `time=` token of the report and
returns its value, tolerating sub-millisecond and multi-digit values, and a
successful outcome whose report has no `time=` token gets no latency. -/
theorem claim_C8 :
    parse_latency pingReportC8 = some ((14123 : ℚ) / 1000) ∧
    parse_latency "64 bytes from 127.0.0.1: icmp_seq=0 ttl=64 time=0.042 ms" =
      some ((42 : ℚ) / 1000) ∧
    parse_latency twoTokenReport = some ((11 : ℚ) / 2) ∧
    parse_latency "x time=123.5 ms" = some ((247 : ℚ) / 2) ∧
    (∀ output : String,
      (∀ line ∈ stringLines output, findSubstr ("time=".data) line = none) →
      pingLatencyOfReport true output = none) := by
  refine ⟨?_, ?_, ?_, ?_, ?_⟩
  · have h : parse_latency pingReportC8 = some (mkRat 14123 1000) := by decide
    rw [h]
    norm_num [mkRat, Rat.normalize]
  · have h : parse_latency "64 bytes from 127.0.0.1: icmp_seq=0 ttl=64 time=0.042 ms" =
        some (mkRat 42 1000) := by decide
    rw [h]
    norm_num [mkRat, Rat.normalize]
  · have h : parse_latency twoTokenReport = some (mkRat 55 10) := by decide
    rw [h]
    norm_num [mkRat, Rat.normalize]
  · have h : parse_latency "x time=123.5 ms" = some (mkRat 1235 10) := by decide
    rw [h]
    norm_num [mkRat, Rat.normalize]
  · intro output h
    have hn : parse_latency output = none := by
      apply findSome?_none_of_all
      intro line hline
      simp [extractTimeToken, h line hline]
    simpa [pingLatencyOfReport] using hn

/-- C9: along any run of `process` calls from a fresh tracker, the outage
slot is occupied exactly when the state is Offline. -/
theorem claim_C9 (config : MonitorConfig) (targets : List Target)
    (l : List (PingResult × Nat)) :
    ((processSeq (ConnectivityTracker.new config targets) l).2.current_outage.isSome = true ↔
      (processSeq (ConnectivityTracker.new config targets) l).2.state =
        ConnectivityState.Offline) := by
  apply processSeq_slotInv
  simp [ConnectivityTracker.new]

/-- C10: an outcome whose target is not configured leaves every
per-endpoint state unchanged while the aggregate counters still update —
with no endpoint failing it counts as a success tick even when it is a
failure — and such a tick can drive a transition (here Degraded back to
Online). -/
theorem claim_C10 :
    (∀ (t : ConnectivityTracker) (result : PingResult) (now : Nat),
      result.target ∉ targetIps t →
      ((t.process result now).2.target_states = t.target_states ∧
       (anyFailingTracker t = true →
         (t.process result now).2.aggregate_failures = t.aggregate_failures + 1 ∧
         (t.process result now).2.aggregate_successes = 0) ∧
       (anyFailingTracker t = false →
         (t.process result now).2.aggregate_successes = t.aggregate_successes + 1 ∧
         (t.process result now).2.aggregate_failures = 0))) ∧
    (trackerC10.state = ConnectivityState.Degraded ∧
     anyFailingTracker trackerC10 = false ∧
     strayFail.success = false ∧
     strayFail.target ∉ targetIps trackerC10 ∧
     (trackerC10.process strayFail 3).2.state = ConnectivityState.Online) := by
  constructor
  · intro t r n h
    have hupd : updateTargetStates t.target_states r = t.target_states :=
      updateTargetStates_not_mem t.target_states r (by simpa [targetIps] using h)
    have hts : (t.process r n).2.target_states = t.target_states := by
      rw [process_target_states, hupd]
    have hany : anyFailingTracker (t.process r n).2 = anyFailingTracker t := by
      unfold anyFailingTracker
      rw [hts]
    refine ⟨hts, ?_, ?_⟩
    · intro hf
      have hc := (process_counters t r n).1 (by rw [hany]; exact hf)
      exact ⟨hc.2, hc.1⟩
    · intro hf
      have hc := (process_counters t r n).2 (by rw [hany]; exact hf)
      exact ⟨hc.2, hc.1⟩
  · refine ⟨by decide, by decide, by decide, by decide, by decide⟩

/-! ## Witnesses -/

/-- Witness for C2 at the concrete scenario configuration. -/
theorem claim_C2_witness :
    (processSeq (ConnectivityTracker.new cfgC1 [targetC1])
        [(failPR 1, 1), (failPR 2, 2)]).1 =
      List.replicate 2 StateEvent.NoChange ∧
    (processSeq (ConnectivityTracker.new cfgC1 [targetC1]) (scenarioC1.take 5)).1.map
        isDegradedEvent =
      (List.range (scenarioC1.take 5).length).map
        (fun i => decide (i + 1 = cfgC1.degraded_threshold)) := by
  constructor
  · exact (claim_C2.1 cfgC1 [targetC1] [(failPR 1, 1), (failPR 2, 2)]
      (by decide) (by decide)).1
  · exact (claim_C2.2 cfgC1 [targetC1] (scenarioC1.take 5) (by decide) (by decide)).1

/-- Witness for C3: the first failure of the scenario is a failing tick. -/
theorem claim_C3_witness :
    ((ConnectivityTracker.new cfgC1 [targetC1]).process (failPR 1) 1).2.aggregate_successes =
      0 ∧
    ((ConnectivityTracker.new cfgC1 [targetC1]).process (failPR 1) 1).2.aggregate_failures =
      (ConnectivityTracker.new cfgC1 [targetC1]).aggregate_failures + 1 :=
  (claim_C3.1 (ConnectivityTracker.new cfgC1 [targetC1]) (failPR 1) 1).1 (by decide)

/-- Witness for C4 at a concrete tracker and outcome. -/
theorem claim_C4_witness :
    ¬ ((ConnectivityTracker.new cfgC1 [targetC1]).state = ConnectivityState.Online ∧
       ((ConnectivityTracker.new cfgC1 [targetC1]).process (failPR 1) 1).2.state =
         ConnectivityState.Offline) :=
  (claim_C4 (ConnectivityTracker.new cfgC1 [targetC1]) (failPR 1) 1).1

/-- Witness for C5 at the concrete Degraded-to-Offline transition and the
concrete diagnosis. -/
theorem claim_C5_witness :
    ((processSeq (ConnectivityTracker.new cfgC1 [targetC1]) (scenarioC1.take 4)).2.state =
       ConnectivityState.Degraded ∧
     outageC1.failing_hop = none) ∧
    ((attachFailingHop outageC1 traceC5).failing_hop = some 2 ∧
     (attachFailingHop outageC1 traceC5).failing_hop_ip = some "10.0.0.1") := by
  constructor
  · have h := claim_C5.1
      (processSeq (ConnectivityTracker.new cfgC1 [targetC1]) (scenarioC1.take 4)).2
      (failPR 5) 5 outageC1
      ((processSeq (ConnectivityTracker.new cfgC1 [targetC1])
        (scenarioC1.take 4)).2.process (failPR 5) 5).2
      (by decide)
    exact ⟨h.1, h.2.2.2.2.1⟩
  · exact claim_C5.2 outageC1 traceC5 2 "10.0.0.1" (by decide)

/-- Witness for C6 at the concrete partial trace. -/
theorem claim_C6_witness :
    ∃ h ip, identify_failing_hop traceC5 = some (h.hop_number, ip) ∧
      h ∈ traceC5.hops ∧ h.ip = some ip ∧ respondingHop h = true ∧
      ∀ h2 ∈ traceC5.hops, respondingHop h2 = true →
        h2.hop_number ≤ h.hop_number :=
  (claim_C6 traceC5).2.2 (by decide) (by decide) hopGw (by decide) (by decide)

/-- Witness for C7 on a fresh tracker with no open outage. -/
theorem claim_C7_witness :
    (ConnectivityTracker.new cfgC1 [targetC1]).current_outage.toList.length ≤ 1 ∧
    (ConnectivityTracker.new cfgC1 [targetC1]).end_outage 3 =
      (none, ConnectivityTracker.new cfgC1 [targetC1]) :=
  ⟨(claim_C7 (ConnectivityTracker.new cfgC1 [targetC1]) 3).1,
   (claim_C7 (ConnectivityTracker.new cfgC1 [targetC1]) 3).2 (by decide)⟩

/-- Witness for C8 on a tokenless report. -/
theorem claim_C8_witness : pingLatencyOfReport true "abc" = none :=
  claim_C8.2.2.2.2 "abc" (by decide)

/-- Witness for C9 on the concrete scenario run. -/
theorem claim_C9_witness :
    ((processSeq (ConnectivityTracker.new cfgC1 [targetC1])
        scenarioC1).2.current_outage.isSome = true ↔
     (processSeq (ConnectivityTracker.new cfgC1 [targetC1]) scenarioC1).2.state =
       ConnectivityState.Offline) :=
  claim_C9 cfgC1 [targetC1] scenarioC1

/-- Witness for C10 on the concrete stray outcome. -/
theorem claim_C10_witness :
    (trackerC10.process strayFail 3).2.target_states = trackerC10.target_states :=
  (claim_C10.1 trackerC10 strayFail 3 (by decide)).1

end Vigil
